import Mathlib

/-!
Verification of the Llama Index chain server façade
(`RetrievalAugmentedGeneration/common/server.py`): a shallow embedding of
its data model and the three endpoint handlers, together with theorems
checking the natural-language specification against the code.
-/

set_option maxHeartbeats 1000000

namespace Server

/-! ## Data model: Message, Prompt, DocumentSearch -/

/-- A chat message, as stored after pydantic validation (`Message`). -/
structure Message where
  role : String
  content : String
deriving DecidableEq, Repr

/-- Python `str.lower()` on the ASCII role strings this code compares:
lowercase each character (written over the character list so that it
computes by unfolding). -/
def strLower (s : String) : String := ⟨s.data.map Char.toLower⟩

/-- Embedding of `Message.validate_role`: the role must lowercase to one of
`user`, `assistant`, `system`; the lowercased role is stored, otherwise a
`ValueError` is raised. -/
def validate_role (value : String) : Except String String :=
  if strLower value ∈ ["user", "assistant", "system"] then
    Except.ok (strLower value)
  else
    Except.error "Role must be one of 'user', 'assistant', or 'system'"

/-- Constructing a `Message` runs the `role` field through `validate_role`
(pydantic validator semantics). -/
def mkMessage (role content : String) : Except String Message :=
  (validate_role role).map (fun r => { role := r, content := content })

/-- Heterogeneous field values, covering the types of `Prompt`'s fields as
they appear in `vars(prompt)`. -/
inductive FieldVal where
  | messages (v : List Message)
  | bool (v : Bool)
  | rat (v : ℚ)
  | int (v : ℤ)
  | optStrList (v : Option (List String))
deriving DecidableEq, Repr

/-- Embedding of the `Prompt` request model with its pydantic field
defaults (`temperature=0.2`, `top_p=0.7`, `max_tokens=1024`, `seed=42`,
`bad=None`, `stop=None`, `stream=False`). Floats carry no arithmetic in
this code, so they are embedded as rationals. -/
structure Prompt where
  messages : List Message
  use_knowledge_base : Bool
  temperature : ℚ := 0.2
  top_p : ℚ := 0.7
  max_tokens : ℤ := 1024
  seed : ℤ := 42
  bad : Option (List String) := none
  stop : Option (List String) := none
  stream : Bool := false
deriving DecidableEq, Repr

/-- `vars(prompt).items()`: the prompt's fields in pydantic's declaration
(= insertion) order. -/
def varsPrompt (p : Prompt) : List (String × FieldVal) :=
  [("messages", FieldVal.messages p.messages),
   ("use_knowledge_base", FieldVal.bool p.use_knowledge_base),
   ("temperature", FieldVal.rat p.temperature),
   ("top_p", FieldVal.rat p.top_p),
   ("max_tokens", FieldVal.int p.max_tokens),
   ("seed", FieldVal.int p.seed),
   ("bad", FieldVal.optStrList p.bad),
   ("stop", FieldVal.optStrList p.stop),
   ("stream", FieldVal.bool p.stream)]

/-- The settings dict built in `generate_answer`:
`{key: value for key, value in vars(prompt).items()
  if key not in ['messages', 'use_knowledge_base']}`. -/
def llm_settings (p : Prompt) : List (String × FieldVal) :=
  (varsPrompt p).filter (fun kv => ¬ (kv.1 ∈ ["messages", "use_knowledge_base"]))

/-! ## Generate: query extraction and history truncation -/

/-- `next((message.content for message in reversed(chat_history)
if message.role == 'user'), None)`: content of the most recent message
with role `user`, or `None`. -/
def lastUserContent (msgs : List Message) : Option String :=
  (msgs.reverse.find? (fun m => m.role = "user")).map Message.content

/-- Helper for the deletion loop: remove the first message with role
`user` from a list, leaving the rest unchanged. -/
def removeFirstUser : List Message → List Message
  | [] => []
  | m :: ms => if m.role = "user" then ms else m :: removeFirstUser ms

/-- The loop `for i in reversed(range(len(chat_history))): if
chat_history[i].role == 'user': del chat_history[i]; break` — delete the
message with role `user` at the highest index, if any. -/
def removeLastUser (msgs : List Message) : List Message :=
  (removeFirstUser msgs.reverse).reverse

/-! ## Generate: dispatch and streaming response -/

/-- Exceptions that the dispatch in `generate_answer` distinguishes: the
Milvus-specific classes (`MilvusException`, `MilvusUnavailableException`)
versus any other exception. -/
inductive ChainExn where
  | milvus (msg : String)
  | other (msg : String)
deriving DecidableEq, Repr

/-- The handler ("example") object as `generate_answer` uses it: the two
chains take the query, the remaining chat history and the unpacked
`llm_settings`, and produce a stream of text chunks or raise. -/
structure Example where
  rag_chain : Option String → List Message → List (String × FieldVal) → Except ChainExn (List String)
  llm_chain : Option String → List Message → List (String × FieldVal) → Except ChainExn (List String)

/-- An HTTP streaming response: a status code, a media type and the
streamed chunks. `StreamingResponse(...)` always carries status 200. -/
structure StreamResponse where
  status : Nat
  media_type : String
  chunks : List String
deriving DecidableEq, Repr

/-- The canned chunk streamed when a Milvus exception is caught. -/
def milvusErrChunk : String :=
  "Error from milvus server. Please ensure you have ingested some documents. Please check chain-server logs for more details."

/-- The canned chunk streamed when any other exception is caught. -/
def genericErrChunk : String :=
  "Error from chain server. Please check chain-server logs for more details."

/-- The `try`/`except` of `generate_answer`: wrap a successful chain
result in a 200 event stream; turn a Milvus exception into one canned
chunk and any other exception into a different canned chunk, both still
as 200 event streams. -/
def mkStreamResponse : Except ChainExn (List String) → StreamResponse
  | Except.ok gen => { status := 200, media_type := "text/event-stream", chunks := gen }
  | Except.error (ChainExn.milvus _) =>
      { status := 200, media_type := "text/event-stream", chunks := [milvusErrChunk] }
  | Except.error (ChainExn.other _) =>
      { status := 200, media_type := "text/event-stream", chunks := [genericErrChunk] }

/-- The chain invocation of `generate_answer`: `rag_chain` when
`use_knowledge_base`, else `llm_chain`, both with the extracted query,
the history with the last user message removed, and `llm_settings`. -/
def chainResult (ex : Example) (p : Prompt) : Except ChainExn (List String) :=
  let last_user_message := lastUserContent p.messages
  let chat_history := removeLastUser p.messages
  if p.use_knowledge_base then
    ex.rag_chain last_user_message chat_history (llm_settings p)
  else
    ex.llm_chain last_user_message chat_history (llm_settings p)

/-- Embedding of the `/generate` endpoint `generate_answer`. -/
def generate_answer (ex : Example) (p : Prompt) : StreamResponse :=
  mkStreamResponse (chainResult ex p)

/-! ## Upload document -/

/-- `os.path.basename` on POSIX: the part of the path after the last
`/` (written over the character list so that it computes by
unfolding). -/
def basename (s : String) : String :=
  ⟨(s.data.reverse.takeWhile (fun c => c ≠ '/')).reverse⟩

/-- Observable outcome of one `/uploadDocument` request: the JSON
response (status, message), the file writes performed and the
`ingest_docs` calls made. -/
structure UploadOutcome where
  status : Nat
  message : String
  written : List (String × String)
  ingested : List (String × String)
deriving DecidableEq, Repr

/-- Embedding of the `/uploadDocument` endpoint `upload_document`.
`ingest` is the handler's `ingest_docs(file_path, filename)`, which may
raise; `content` are the uploaded bytes. An empty filename returns 200
"No files provided" before the `try` block; an empty basename raises
`RuntimeError("Error parsing uploaded filename.")`, caught by the
`except` as a 500 carrying `str(e)`; otherwise the bytes are written to
`uploaded_files/<basename>` and `ingest_docs` is called, any exception
again becoming a 500 with its message. -/
def upload_document (ingest : String → String → Except String Unit)
    (filename content : String) : UploadOutcome :=
  if filename = "" then
    { status := 200, message := "No files provided", written := [], ingested := [] }
  else
    let upload_file := basename filename
    if upload_file = "" then
      { status := 500, message := "Error parsing uploaded filename.",
        written := [], ingested := [] }
    else
      let file_path := "uploaded_files/" ++ upload_file
      match ingest file_path upload_file with
      | Except.ok _ =>
          { status := 200, message := "File uploaded successfully",
            written := [(file_path, content)], ingested := [(file_path, upload_file)] }
      | Except.error e =>
          { status := 500, message := e,
            written := [(file_path, content)], ingested := [(file_path, upload_file)] }

/-! ## Document search -/

/-- A returned document: an arbitrary string-keyed mapping, not
validated by the façade. -/
abbrev Doc : Type := List (String × String)

/-- Embedding of the `/documentSearch` endpoint `document_search`.
`search` is `example.document_search` when the handler exposes it as a
callable (`none` models a handler without the method, for which the code
raises `NotImplementedError` and immediately catches it). Any exception
from the dispatch yields `[]`; a successful call's list is returned
directly. -/
def document_search (search : Option (String → Int → Except String (List Doc)))
    (content : String) (num_docs : Int) : List Doc :=
  match search with
  | none => []
  | some f =>
    match f content num_docs with
    | Except.ok docs => docs
    | Except.error _ => []

/-! ## Startup discovery and the per-request handler lifecycle -/

/-- A Python class as the discovery scan sees it: its name, `dir(cls)`,
and whether the probe instantiation `cls()` succeeds. -/
structure ExampleClass where
  name : String
  methods : List String
  instantiable : Bool
deriving DecidableEq, Repr

/-- A discovered source file: its name and the classes `getmembers(module,
isclass)` yields for it, in inspection order. -/
structure PyFile where
  fname : String
  classes : List ExampleClass
deriving DecidableEq, Repr

/-- The two fatal startup errors of `import_example`. -/
inductive DiscoverError where
  | valueError (className : String)
  | notImplemented
deriving DecidableEq, Repr

/-- `set(["ingest_docs", "llm_chain", "rag_chain"]).issubset(set(dir(cls)))`. -/
def hasRequired (c : ExampleClass) : Bool :=
  ["ingest_docs", "llm_chain", "rag_chain"].all (fun m => m ∈ c.methods)

/-- The inner class scan of `import_example`: the first class exposing
the three required methods wins, `BaseExample` is skipped, and a failing
probe instantiation raises a `ValueError` naming the class. -/
def scanClasses : List ExampleClass → Except DiscoverError (Option ExampleClass)
  | [] => Except.ok none
  | c :: rest =>
    if hasRequired c then
      if c.name = "BaseExample" then scanClasses rest
      else if c.instantiable then Except.ok (some c)
      else Except.error (DiscoverError.valueError c.name)
    else scanClasses rest

/-- `file.endswith(".py")`, written over the character list so that it
computes by unfolding. -/
def endsWithDotPy (s : String) : Bool :=
  match s.data.reverse with
  | 'y' :: 'p' :: '.' :: _ => true
  | _ => false

/-- Embedding of the startup hook `import_example`: walk the example
directory's files, skip non-`.py` files, and bind the first qualifying
class; raise `NotImplementedError` if none is found. The code stores the
class itself (`app.example = cls`), not the probe instance. -/
def import_example : List PyFile → Except DiscoverError ExampleClass
  | [] => Except.error DiscoverError.notImplemented
  | f :: rest =>
    if endsWithDotPy f.fname then
      match scanClasses f.classes with
      | Except.error e => Except.error e
      | Except.ok (some c) => Except.ok c
      | Except.ok none => import_example rest
    else import_example rest

/-- A handler instance: which class it instantiates plus an identity tag
distinguishing separate `cls()` calls. -/
structure Instance where
  cls : ExampleClass
  id : Nat
deriving DecidableEq, Repr

/-- Process state after startup: the bound class `app.example` and a
counter of instantiations performed so far. -/
structure ProcessState where
  exampleCls : ExampleClass
  nextId : Nat
deriving DecidableEq, Repr

/-- Run the startup hook: the probe `example = cls()` inside
`import_example` is instantiation number 0, so a fresh process starts
with `nextId = 1`. -/
def startup (files : List PyFile) : Except DiscoverError ProcessState :=
  (import_example files).map (fun c => { exampleCls := c, nextId := 1 })

/-- One evaluation of `app.example()`: construct a new instance of the
bound class. -/
def instantiate (s : ProcessState) : Instance × ProcessState :=
  ({ cls := s.exampleCls, id := s.nextId }, { s with nextId := s.nextId + 1 })

/-- The three endpoints. -/
inductive Endpoint where
  | uploadDocument
  | generate
  | documentSearch
deriving DecidableEq, Repr

/-- The handler obtained by one request: each endpoint body evaluates
`app.example()` once when it reaches the handler (upload after writing
the file, generate and search at dispatch). -/
def serve (s : ProcessState) (_e : Endpoint) : Instance × ProcessState :=
  instantiate s

/-- The handler instances used by a sequence of handler-reaching
requests, in order. -/
def serveAll (s : ProcessState) : List Endpoint → List Instance
  | [] => []
  | e :: es =>
    let (i, s') := serve s e
    i :: serveAll s' es

/-! ## Helper lemmas -/

theorem removeFirstUser_of_no_user (l : List Message)
    (h : ∀ x ∈ l, x.role ≠ "user") : removeFirstUser l = l := by
  induction l with
  | nil => rfl
  | cons m ms ih =>
    rw [removeFirstUser, if_neg (h m (List.mem_cons_self m ms)),
      ih (fun x hx => h x (List.mem_cons_of_mem m hx))]

theorem removeFirstUser_subset (l : List Message) :
    ∀ x ∈ removeFirstUser l, x ∈ l := by
  induction l with
  | nil => intro x hx; exact absurd hx (by simp [removeFirstUser])
  | cons m ms ih =>
    intro x hx
    rw [removeFirstUser] at hx
    by_cases hm : m.role = "user"
    · rw [if_pos hm] at hx
      exact List.mem_cons_of_mem m hx
    · rw [if_neg hm] at hx
      rcases List.mem_cons.mp hx with h | h
      · exact h ▸ List.mem_cons_self m ms
      · exact List.mem_cons_of_mem m (ih x h)

theorem removeFirstUser_head_not_user (l : List Message)
    (h : ∀ (m1 m2 : Message) (rest : List Message),
      l = m1 :: m2 :: rest → m1.role = "user" → m2.role = "user" → False) :
    ∀ m, (removeFirstUser l).head? = some m → m.role ≠ "user" := by
  match l with
  | [] => intro m hm; exact absurd hm (by simp [removeFirstUser])
  | [a] =>
    intro m hm
    by_cases ha : a.role = "user"
    · rw [removeFirstUser, if_pos ha] at hm
      exact absurd hm (by simp)
    · rw [removeFirstUser, if_neg ha] at hm
      simp only [List.head?_cons, Option.some.injEq] at hm
      exact hm ▸ ha
  | a :: b :: rest =>
    intro m hm
    by_cases ha : a.role = "user"
    · rw [removeFirstUser, if_pos ha] at hm
      simp only [List.head?_cons, Option.some.injEq] at hm
      intro hb
      exact h a b rest rfl ha (hm ▸ hb)
    · rw [removeFirstUser, if_neg ha] at hm
      simp only [List.head?_cons, Option.some.injEq] at hm
      exact hm ▸ ha

/-! ## Claims -/

/-- C2: for a conversation whose last message has role `user`, the
generate operation uses that message's content as the query and removes
exactly that message from the history passed onward; for a conversation
with no `user` message, the query is `None` and the history is passed on
unchanged. -/
theorem generate_query_extraction (msgs : List Message) (m : Message) :
    (m.role = "user" →
      lastUserContent (msgs ++ [m]) = some m.content ∧
      removeLastUser (msgs ++ [m]) = msgs) ∧
    ((∀ x ∈ msgs, x.role ≠ "user") →
      lastUserContent msgs = none ∧ removeLastUser msgs = msgs) := by
  constructor
  · intro h
    constructor
    · simp [lastUserContent, List.reverse_append, h]
    · simp [removeLastUser, List.reverse_append, removeFirstUser, h]
  · intro h
    constructor
    · have hf : List.find? (fun x => decide (x.role = "user")) msgs.reverse = none :=
        List.find?_eq_none.mpr (fun x hx => by simpa using h x (List.mem_reverse.mp hx))
      simp only [lastUserContent, hf, Option.map_none']
    · rw [removeLastUser, removeFirstUser_of_no_user _
        (fun x hx => h x (List.mem_reverse.mp hx)), List.reverse_reverse]

/-- C2 witness: a history ending in a user turn, and one with no user
turn. -/
theorem generate_query_extraction_witness :
    (lastUserContent [⟨"assistant", "a"⟩, ⟨"user", "q"⟩] = some "q" ∧
      removeLastUser [⟨"assistant", "a"⟩, ⟨"user", "q"⟩] = [⟨"assistant", "a"⟩]) ∧
    (lastUserContent [⟨"assistant", "a"⟩] = none ∧
      removeLastUser [⟨"assistant", "a"⟩] = [⟨"assistant", "a"⟩]) :=
  ⟨(generate_query_extraction [⟨"assistant", "a"⟩] ⟨"user", "q"⟩).1 rfl,
   (generate_query_extraction [⟨"assistant", "a"⟩] ⟨"user", "q"⟩).2 (by decide)⟩

/-- C3 counterexample: for the request `[user "a", user "b"]` the
generate operation removes only the final user message, and the
resulting history still ends with a message of role `user`. -/
theorem generate_history_end_counterexample :
    removeLastUser [⟨"user", "a"⟩, ⟨"user", "b"⟩] = [⟨"user", "a"⟩] ∧
    ((removeLastUser [⟨"user", "a"⟩, ⟨"user", "b"⟩]).getLast?).map Message.role
      = some "user" := by
  constructor <;> rfl

/-- Do the last two messages of the history both have role `user`? -/
def lastTwoBothUser (msgs : List Message) : Bool :=
  match msgs.reverse with
  | b :: a :: _ => decide (b.role = "user") && decide (a.role = "user")
  | _ => false

/-- C3 (amended): provided the conversation's final two messages are not
both of role `user` and all roles are validated, the history left after
the generate operation's single removal never ends with a `user`
message: its last message, if any, has role `assistant` or `system`. -/
theorem generate_history_end_amended (msgs : List Message)
    (hvalid : ∀ x ∈ msgs, x.role ∈ (["user", "assistant", "system"] : List String))
    (hsafe : lastTwoBothUser msgs = false)
    (m : Message) (hm : (removeLastUser msgs).getLast? = some m) :
    m.role = "assistant" ∨ m.role = "system" := by
  rw [removeLastUser, List.getLast?_eq_head?_reverse, List.reverse_reverse] at hm
  have hnu : m.role ≠ "user" := by
    refine removeFirstUser_head_not_user msgs.reverse ?_ m hm
    intro m1 m2 rest hrev h1 h2
    rw [lastTwoBothUser, hrev] at hsafe
    simp [h1, h2] at hsafe
  have hmem : m ∈ msgs := by
    have := removeFirstUser_subset msgs.reverse m (List.mem_of_mem_head? (by simp [hm]))
    exact List.mem_reverse.mp this
  have hv := hvalid m hmem
  simp only [List.mem_cons, List.not_mem_nil, or_false] at hv
  rcases hv with h | h | h
  · exact absurd h hnu
  · exact Or.inl h
  · exact Or.inr h

/-- C3 witness: `[user "q", assistant "a"]` satisfies the amended
hypotheses and ends with an `assistant` turn after the removal. -/
theorem generate_history_end_amended_witness :
    (⟨"assistant", "a"⟩ : Message).role = "assistant" ∨
    (⟨"assistant", "a"⟩ : Message).role = "system" :=
  generate_history_end_amended [⟨"user", "q"⟩, ⟨"assistant", "a"⟩]
    (by decide) (by decide) ⟨"assistant", "a"⟩ rfl

/-- C4: the settings mapping passed to the chain contains exactly the
request fields other than `messages` and `use_knowledge_base`
(temperature, top_p, max_tokens, seed, bad, stop, stream) with their
provided values, and the unspecified fields take the defaults
temperature=0.2, top_p=0.7, max_tokens=1024, seed=42, stream=False. -/
theorem llm_settings_spec (p : Prompt) (ms : List Message) (b : Bool) :
    llm_settings p =
      [("temperature", FieldVal.rat p.temperature),
       ("top_p", FieldVal.rat p.top_p),
       ("max_tokens", FieldVal.int p.max_tokens),
       ("seed", FieldVal.int p.seed),
       ("bad", FieldVal.optStrList p.bad),
       ("stop", FieldVal.optStrList p.stop),
       ("stream", FieldVal.bool p.stream)] ∧
    llm_settings { messages := ms, use_knowledge_base := b } =
      [("temperature", FieldVal.rat 0.2),
       ("top_p", FieldVal.rat 0.7),
       ("max_tokens", FieldVal.int 1024),
       ("seed", FieldVal.int 42),
       ("bad", FieldVal.optStrList none),
       ("stop", FieldVal.optStrList none),
       ("stream", FieldVal.bool false)] :=
  ⟨rfl, rfl⟩

/-- C10: a role whose lowercase form is `user`, `assistant` or `system`
is accepted and stored lowercased; any other role is rejected with a
validation error. -/
theorem message_role_validation (role content : String) :
    (strLower role ∈ (["user", "assistant", "system"] : List String) →
      mkMessage role content = Except.ok { role := strLower role, content := content }) ∧
    (strLower role ∉ (["user", "assistant", "system"] : List String) →
      mkMessage role content =
        Except.error "Role must be one of 'user', 'assistant', or 'system'") := by
  constructor <;> intro h <;> simp [mkMessage, validate_role, h, Except.map]

/-- C10 witness: role `USER` is normalized to `user`; role `bot` is
rejected. -/
theorem message_role_validation_witness :
    mkMessage "USER" "hi" = Except.ok { role := "user", content := "hi" } ∧
    mkMessage "bot" "hi" =
      Except.error "Role must be one of 'user', 'assistant', or 'system'" :=
  ⟨by exact (message_role_validation "USER" "hi").1 (by decide),
   (message_role_validation "bot" "hi").2 (by decide)⟩

/-- A qualifying handler class as discovery would find one. -/
def sampleClass : ExampleClass :=
  { name := "QAChatbot",
    methods := ["ingest_docs", "llm_chain", "rag_chain", "document_search"],
    instantiable := true }

/-- An example directory holding one source file with one qualifying
class. -/
def sampleFiles : List PyFile :=
  [{ fname := "chains.py", classes := [sampleClass] }]

/-- C1 counterexample: after a successful startup, two consecutive
requests to the generate endpoint are served by two distinct handler
instances of the bound class — `app.example` stores the class and each
request evaluates `app.example()` anew, so the "single process-wide
instance, never re-instantiated" reading is false. -/
theorem single_handler_instance_counterexample :
    startup sampleFiles = Except.ok { exampleCls := sampleClass, nextId := 1 } ∧
    serveAll { exampleCls := sampleClass, nextId := 1 }
        [Endpoint.generate, Endpoint.generate] =
      [{ cls := sampleClass, id := 1 }, { cls := sampleClass, id := 2 }] ∧
    ({ cls := sampleClass, id := 1 } : Instance) ≠ { cls := sampleClass, id := 2 } :=
  ⟨rfl, rfl, by decide⟩

theorem serveAll_eq (reqs : List Endpoint) (s : ProcessState) :
    serveAll s reqs = (List.range reqs.length).map
      (fun k => { cls := s.exampleCls, id := s.nextId + k }) := by
  induction reqs generalizing s with
  | nil => rfl
  | cons e es ih =>
    rw [serveAll]
    show ({ cls := s.exampleCls, id := s.nextId } : Instance) ::
        serveAll { exampleCls := s.exampleCls, nextId := s.nextId + 1 } es = _
    rw [ih, List.length_cons, List.range_succ_eq_map, List.map_cons, List.map_map]
    refine congrArg₂ _ (by simp) (List.map_congr_left ?_)
    intro k _
    simp only [Function.comp_apply, Instance.mk.injEq, true_and]
    omega

/-- C1 (amended): exactly one handler class is bound at startup and
never replaced — every request on any endpoint is served by an instance
of that same class — but each request constructs a fresh instance of the
class rather than reusing a single process-wide instance. -/
theorem single_handler_class_amended (files : List PyFile) (s : ProcessState)
    (h : startup files = Except.ok s) (reqs : List Endpoint) :
    (∀ i ∈ serveAll s reqs, i.cls = s.exampleCls) ∧
    (serveAll s reqs).Pairwise (fun a b => a.id ≠ b.id) := by
  constructor
  · intro i hi
    rw [serveAll_eq] at hi
    rcases List.mem_map.mp hi with ⟨k, _, hk⟩
    rw [← hk]
  · rw [serveAll_eq]
    refine List.Pairwise.map _ (fun a b hab => ?_) (List.pairwise_lt_range reqs.length)
    simpa using fun hcongr => absurd hcongr (by omega)

/-- C1 witness: the sample directory starts up and two requests use the
same class with distinct instance identities. -/
theorem single_handler_class_amended_witness :
    (∀ i ∈ serveAll { exampleCls := sampleClass, nextId := 1 }
        [Endpoint.generate, Endpoint.documentSearch], i.cls = sampleClass) ∧
    (serveAll { exampleCls := sampleClass, nextId := 1 }
        [Endpoint.generate, Endpoint.documentSearch]).Pairwise
      (fun a b => a.id ≠ b.id) :=
  single_handler_class_amended sampleFiles { exampleCls := sampleClass, nextId := 1 }
    rfl [Endpoint.generate, Endpoint.documentSearch]

/-- C5: when the dispatched chain raises a Milvus exception, the
response is still a status-200 event stream whose single chunk is the
canned storage message; any other exception yields a status-200 event
stream whose single chunk is the canned generic message. -/
theorem generate_error_streams (ex : Example) (p : Prompt) (m : String) :
    (chainResult ex p = Except.error (ChainExn.milvus m) →
      generate_answer ex p =
        { status := 200, media_type := "text/event-stream", chunks := [milvusErrChunk] }) ∧
    (chainResult ex p = Except.error (ChainExn.other m) →
      generate_answer ex p =
        { status := 200, media_type := "text/event-stream", chunks := [genericErrChunk] }) := by
  constructor <;> intro h <;> rw [generate_answer, h] <;> rfl

/-- A handler whose chains raise a Milvus exception. -/
def milvusFailingExample : Example :=
  { rag_chain := fun _ _ _ => Except.error (ChainExn.milvus "connect refused"),
    llm_chain := fun _ _ _ => Except.error (ChainExn.milvus "connect refused") }

/-- A handler whose chains raise a non-Milvus exception. -/
def otherFailingExample : Example :=
  { rag_chain := fun _ _ _ => Except.error (ChainExn.other "boom"),
    llm_chain := fun _ _ _ => Except.error (ChainExn.other "boom") }

/-- C5 witness: a Milvus-raising handler and a generically raising
handler, each on a concrete request. -/
theorem generate_error_streams_witness :
    generate_answer milvusFailingExample { messages := [], use_knowledge_base := true } =
      { status := 200, media_type := "text/event-stream", chunks := [milvusErrChunk] } ∧
    generate_answer otherFailingExample { messages := [], use_knowledge_base := false } =
      { status := 200, media_type := "text/event-stream", chunks := [genericErrChunk] } :=
  ⟨(generate_error_streams milvusFailingExample
      { messages := [], use_knowledge_base := true } "connect refused").1 rfl,
   (generate_error_streams otherFailingExample
      { messages := [], use_knowledge_base := false } "boom").2 rfl⟩

/-- C6: an upload with an empty filename returns status 200 with the
"No files provided" message, writes nothing, and never calls
`ingest_docs`. -/
theorem upload_empty_filename (ingest : String → String → Except String Unit)
    (content : String) :
    upload_document ingest "" content =
      { status := 200, message := "No files provided",
        written := [], ingested := [] } :=
  rfl

/-- C7: a non-empty filename is reduced to its base component for both
the stored path and the `ingest_docs` call; if the base component is
empty, the request fails with the runtime error surfaced as a status-500
response carrying its message, with no write and no ingestion call. -/
theorem upload_sanitizes_filename (ingest : String → String → Except String Unit)
    (filename content : String) (hne : filename ≠ "") :
    (basename filename ≠ "" →
      (upload_document ingest filename content).written =
        [("uploaded_files/" ++ basename filename, content)] ∧
      (upload_document ingest filename content).ingested =
        [("uploaded_files/" ++ basename filename, basename filename)]) ∧
    (basename filename = "" →
      upload_document ingest filename content =
        { status := 500, message := "Error parsing uploaded filename.",
          written := [], ingested := [] }) := by
  constructor
  · intro hb
    rcases hi : ingest ("uploaded_files/" ++ basename filename) (basename filename)
      with _ | e <;> simp [upload_document, hne, hb, hi]
  · intro hb
    simp [upload_document, hne, hb]

/-- C7 witness: a path-traversal filename keeps only its base component;
a filename ending in a separator fails with the 500 runtime error. -/
theorem upload_sanitizes_filename_witness :
    ((upload_document (fun _ _ => Except.ok ()) "../../etc/passwd" "x").written =
        [("uploaded_files/passwd", "x")] ∧
      (upload_document (fun _ _ => Except.ok ()) "../../etc/passwd" "x").ingested =
        [("uploaded_files/passwd", "passwd")]) ∧
    upload_document (fun _ _ => Except.ok ()) "subdir/" "x" =
      { status := 500, message := "Error parsing uploaded filename.",
        written := [], ingested := [] } :=
  ⟨by exact (upload_sanitizes_filename (fun _ _ => Except.ok ())
      "../../etc/passwd" "x" (by decide)).1 (by decide),
   (upload_sanitizes_filename (fun _ _ => Except.ok ()) "subdir/" "x"
      (by decide)).2 (by decide)⟩

/-- C8: document search returns the handler's result list unvalidated on
success, and degrades to the empty list when the handler has no callable
search operation or its call raises any exception. -/
theorem document_search_degrades (f : String → Int → Except String (List Doc))
    (content : String) (num_docs : Int) (e : String) (docs : List Doc) :
    document_search none content num_docs = [] ∧
    (f content num_docs = Except.error e →
      document_search (some f) content num_docs = []) ∧
    (f content num_docs = Except.ok docs →
      document_search (some f) content num_docs = docs) := by
  refine ⟨rfl, ?_, ?_⟩ <;> intro h <;> rw [document_search, h]

/-- C8 witness: a raising search and a succeeding search on a concrete
query. -/
theorem document_search_degrades_witness :
    document_search (some (fun _ _ => Except.error "search blew up")) "q" 4 = [] ∧
    document_search (some (fun _ _ => Except.ok [[("source", "doc.pdf")]])) "q" 4 =
      [[("source", "doc.pdf")]] :=
  ⟨(document_search_degrades (fun _ _ => Except.error "search blew up") "q" 4
      "search blew up" []).2.1 rfl,
   (document_search_degrades (fun _ _ => Except.ok [[("source", "doc.pdf")]]) "q" 4
      "" [[("source", "doc.pdf")]]).2.2 rfl⟩

/-- C9: the generate operation dispatches to `rag_chain` when
`use_knowledge_base` is true and to `llm_chain` when it is false, in
both cases with the same arguments: the extracted query, the remaining
history, and the settings mapping. -/
theorem generate_dispatch (ex : Example) (p : Prompt) :
    (p.use_knowledge_base = true →
      generate_answer ex p = mkStreamResponse
        (ex.rag_chain (lastUserContent p.messages) (removeLastUser p.messages)
          (llm_settings p))) ∧
    (p.use_knowledge_base = false →
      generate_answer ex p = mkStreamResponse
        (ex.llm_chain (lastUserContent p.messages) (removeLastUser p.messages)
          (llm_settings p))) := by
  constructor <;> intro h <;> rw [generate_answer, chainResult] <;> rw [h] <;> rfl

/-- A stub handler whose chains record which one was invoked. -/
def recordingExample : Example :=
  { rag_chain := fun _ _ _ => Except.ok ["rag invoked"],
    llm_chain := fun _ _ _ => Except.ok ["llm invoked"] }

/-- C9 witness: the recording stub shows the flag selects the chain. -/
theorem generate_dispatch_witness :
    generate_answer recordingExample { messages := [], use_knowledge_base := true } =
      { status := 200, media_type := "text/event-stream", chunks := ["rag invoked"] } ∧
    generate_answer recordingExample { messages := [], use_knowledge_base := false } =
      { status := 200, media_type := "text/event-stream", chunks := ["llm invoked"] } :=
  ⟨(generate_dispatch recordingExample { messages := [], use_knowledge_base := true }).1 rfl,
   (generate_dispatch recordingExample { messages := [], use_knowledge_base := false }).2 rfl⟩

end Server
